import Mathlib

/-!
Verification of the Paynow gateway adapter (`getpaid_paynow`).

The development shallowly embeds the signing, verification, status
mapping, amount conversion and notification handling logic of
`client.py` and `processor.py`: machine integers are `Nat` with
explicit `% 2 ^ 32`, byte strings are `List Nat`, Python dicts are
association lists, and raising is an `Except`/`Option` error value.
-/

namespace Paynow

/-! ## Bit operations on 32-bit words -/

/-- Bitwise AND on naturals, computed bit by bit with explicit fuel
(32 suffices for 32-bit words); the AND of two bits is their
product. -/
def landAux : Nat → Nat → Nat → Nat
  | 0, _, _ => 0
  | fuel+1, a, b => a % 2 * (b % 2) + 2 * landAux fuel (a / 2) (b / 2)

/-- Bitwise XOR on naturals, computed bit by bit with explicit fuel;
the XOR of two bits is their sum mod 2. -/
def lxorAux : Nat → Nat → Nat → Nat
  | 0, _, _ => 0
  | fuel+1, a, b => (a % 2 + b % 2) % 2 + 2 * lxorAux fuel (a / 2) (b / 2)

def land32 (a b : Nat) : Nat := landAux 32 a b

def lxor32 (a b : Nat) : Nat := lxorAux 32 a b

/-- Bitwise complement within a 32-bit word. -/
def lnot32 (a : Nat) : Nat := (2 ^ 32 - 1) - a % 2 ^ 32

/-- Right rotation of a 32-bit word. -/
def rotr32 (n w : Nat) : Nat :=
  ((w % 2 ^ 32) / 2 ^ n + (w % 2 ^ n) * 2 ^ (32 - n)) % 2 ^ 32

/-- Logical right shift of a 32-bit word. -/
def shr32 (n w : Nat) : Nat := (w % 2 ^ 32) / 2 ^ n

/-! ## SHA-256 (`hashlib.sha256`) over byte lists -/

/-- SHA-256 round constants (FIPS 180-4), written in decimal. -/
def sha256K : List Nat :=
  [1116352408, 1899447441, 3049323471, 3921009573,
   961987163, 1508970993, 2453635748, 2870763221,
   3624381080, 310598401, 607225278, 1426881987,
   1925078388, 2162078206, 2614888103, 3248222580,
   3835390401, 4022224774, 264347078, 604807628,
   770255983, 1249150122, 1555081692, 1996064986,
   2554220882, 2821834349, 2952996808, 3210313671,
   3336571891, 3584528711, 113926993, 338241895,
   666307205, 773529912, 1294757372, 1396182291,
   1695183700, 1986661051, 2177026350, 2456956037,
   2730485921, 2820302411, 3259730800, 3345764771,
   3516065817, 3600352804, 4094571909, 275423344,
   430227734, 506948616, 659060556, 883997877,
   958139571, 1322822218, 1537002063, 1747873779,
   1955562222, 2024104815, 2227730452, 2361852424,
   2428436474, 2756734187, 3204031479, 3329325298]

/-- SHA-256 initial hash state (FIPS 180-4), written in decimal. -/
def sha256H0 : List Nat :=
  [1779033703, 3144134277, 1013904242, 2773480762,
   1359893119, 2600822924, 528734635, 1541459225]

/-- Big-endian byte serialization of a natural into `k` bytes. -/
def toBytesBE : Nat → Nat → List Nat
  | 0, _ => []
  | k+1, n => toBytesBE k (n / 256) ++ [n % 256]

/-- SHA-256 message padding: append `0x80`, zero bytes to 56 mod 64,
then the 64-bit big-endian bit length. -/
def sha256Pad (msg : List Nat) : List Nat :=
  let len := msg.length
  let z := (64 + 56 - (len + 1) % 64) % 64
  msg ++ [0x80] ++ List.replicate z 0 ++ toBytesBE 8 (8 * len)

/-- Group a byte list into big-endian 32-bit words. -/
def bytesToWords : List Nat → List Nat
  | b0 :: b1 :: b2 :: b3 :: rest =>
    (((b0 * 256 + b1) * 256 + b2) * 256 + b3) :: bytesToWords rest
  | _ => []

/-- Split a padded byte string into `k` blocks of 64 bytes. -/
def splitBlocks : Nat → List Nat → List (List Nat)
  | 0, _ => []
  | k+1, bytes => bytes.take 64 :: splitBlocks k (bytes.drop 64)

/-- Extend the 16-word block to the 64-word message schedule,
appending `k` further words; `recent` holds the words produced so
far, newest first, and the result is in message order. -/
def sha256Schedule : Nat → List Nat → List Nat
  | 0, recent => recent.reverse
  | k+1, recent =>
    let w15 := recent.getD 14 0
    let w2 := recent.getD 1 0
    let s0 := lxor32 (lxor32 (rotr32 7 w15) (rotr32 18 w15)) (shr32 3 w15)
    let s1 := lxor32 (lxor32 (rotr32 17 w2) (rotr32 19 w2)) (shr32 10 w2)
    sha256Schedule k (((recent.getD 15 0 + s0 + recent.getD 6 0 + s1) % 2 ^ 32) :: recent)

/-- One SHA-256 round, consuming one (constant, schedule-word) pair. -/
def sha256Round (st : List Nat) (kw : Nat × Nat) : List Nat :=
  match st with
  | [a, b, c, d, e, f, g, h] =>
    let S1 := lxor32 (lxor32 (rotr32 6 e) (rotr32 11 e)) (rotr32 25 e)
    let ch := lxor32 (land32 e f) (land32 (lnot32 e) g)
    let temp1 := (h + S1 + ch + kw.1 + kw.2) % 2 ^ 32
    let S0 := lxor32 (lxor32 (rotr32 2 a) (rotr32 13 a)) (rotr32 22 a)
    let maj := lxor32 (lxor32 (land32 a b) (land32 a c)) (land32 b c)
    let temp2 := (S0 + maj) % 2 ^ 32
    [(temp1 + temp2) % 2 ^ 32, a, b, c, (d + temp1) % 2 ^ 32, e, f, g]
  | _ => st

/-- SHA-256 compression of one 64-byte block into the running state. -/
def sha256Compress (h : List Nat) (block : List Nat) : List Nat :=
  let w := sha256Schedule 48 (bytesToWords block).reverse
  let st := (sha256K.zip w).foldl sha256Round h
  List.zipWith (fun x y => (x + y) % 2 ^ 32) h st

/-- SHA-256 of a byte list, as a 32-byte digest. -/
def sha256 (msg : List Nat) : List Nat :=
  let padded := sha256Pad msg
  let final := (splitBlocks (padded.length / 64) padded).foldl sha256Compress sha256H0
  (final.map (toBytesBE 4)).flatten

/-- HMAC-SHA256 (`hmac.new(key, msg, hashlib.sha256)`) over byte
lists. -/
def hmacSha256 (key msg : List Nat) : List Nat :=
  let k1 := if key.length > 64 then sha256 key else key
  let k0 := k1 ++ List.replicate (64 - k1.length) 0
  let ipad := k0.map (fun b => lxor32 b 0x36)
  let opad := k0.map (fun b => lxor32 b 0x5c)
  sha256 (opad ++ sha256 (ipad ++ msg))

/-! ## Base64 (`base64.b64encode`) -/

/-- Base64 alphabet (standard, RFC 4648). -/
def b64Alphabet : List Char :=
  "ABCDEFGHIJKLMNOPQRSTUVWXYZabcdefghijklmnopqrstuvwxyz0123456789+/".data

def b64Char (n : Nat) : Char := b64Alphabet.getD n 'A'

/-- Base64 encoding with padding of a byte list, as characters. -/
def base64Chars : List Nat → List Char
  | [] => []
  | [b0] =>
    [b64Char (b0 / 4), b64Char (b0 % 4 * 16), '=', '=']
  | [b0, b1] =>
    [b64Char (b0 / 4), b64Char (b0 % 4 * 16 + b1 / 16), b64Char (b1 % 16 * 4), '=']
  | b0 :: b1 :: b2 :: rest =>
    b64Char (b0 / 4) :: b64Char (b0 % 4 * 16 + b1 / 16) ::
      b64Char (b1 % 16 * 4 + b2 / 64) :: b64Char (b2 % 64) :: base64Chars rest

def base64Encode (bytes : List Nat) : String := String.mk (base64Chars bytes)

/-! ## UTF-8 (`str.encode()`) -/

/-- UTF-8 encoding of one character. -/
def utf8Char (c : Char) : List Nat :=
  let n := c.toNat
  if n < 0x80 then [n]
  else if n < 0x800 then [0xc0 + n / 64, 0x80 + n % 64]
  else if n < 0x10000 then
    [0xe0 + n / 4096, 0x80 + n / 64 % 64, 0x80 + n % 64]
  else
    [0xf0 + n / 262144, 0x80 + n / 4096 % 64, 0x80 + n / 64 % 64, 0x80 + n % 64]

/-- UTF-8 encoding of a string. -/
def utf8 (s : String) : List Nat := (s.data.map utf8Char).flatten

/-! ## Compact JSON serialization (`json.dumps` with separators
`(",", ":")` and default `ensure_ascii=True`) restricted to the
payload shapes the signer builds -/

def hexDigit (n : Nat) : Char := "0123456789abcdef".data.getD n '0'

/-- A `\uXXXX` JSON escape sequence. -/
def uEscape (n : Nat) : List Char :=
  ['\\', 'u', hexDigit (n / 4096 % 16), hexDigit (n / 256 % 16),
   hexDigit (n / 16 % 16), hexDigit (n % 16)]

/-- JSON string-character escaping as `json.dumps` performs it:
quote, backslash and the named control characters get two-character
escapes, other control and all non-ASCII characters get `\uXXXX`
(surrogate pairs beyond the BMP), the printable ASCII range is
literal. -/
def escapeChar (c : Char) : List Char :=
  if c = '"' then ['\\', '"']
  else if c = '\\' then ['\\', '\\']
  else if c.toNat = 8 then ['\\', 'b']
  else if c.toNat = 9 then ['\\', 't']
  else if c.toNat = 10 then ['\\', 'n']
  else if c.toNat = 12 then ['\\', 'f']
  else if c.toNat = 13 then ['\\', 'r']
  else if 0x20 ≤ c.toNat ∧ c.toNat ≤ 0x7e then [c]
  else if c.toNat < 0x10000 then uEscape c.toNat
  else
    uEscape (0xd800 + (c.toNat - 0x10000) / 1024) ++
      uEscape (0xdc00 + (c.toNat - 0x10000) % 1024)

/-- JSON serialization of a string value, quotes included. -/
def jsonString (s : String) : String :=
  String.mk ('"' :: (s.data.map escapeChar).flatten ++ ['"'])

/-- JSON members of a flat string-to-string object, joined by the
compact item separator. -/
def jsonMembers : List (String × String) → String
  | [] => ""
  | [(k, v)] => jsonString k ++ ":" ++ jsonString v
  | (k, v) :: rest => jsonString k ++ ":" ++ jsonString v ++ "," ++ jsonMembers rest

/-- Compact JSON serialization of a flat string-to-string object. -/
def jsonObj (l : List (String × String)) : String :=
  "\x7b" ++ jsonMembers l ++ "\x7d"

/-! ## Sorting of dict items (`dict(sorted(d.items()))`) -/

/-- Lexicographic strict comparison of character lists by code point,
which is how Python compares strings. -/
def lexLt : List Char → List Char → Bool
  | _, [] => false
  | [], _ :: _ => true
  | a :: as, b :: bs =>
    Nat.blt a.toNat b.toNat || (Nat.beq a.toNat b.toNat && lexLt as bs)

/-- Python string `<` (code-point lexicographic). -/
def strLt (x y : String) : Bool := lexLt x.data y.data

/-- Python string `<=`. -/
def strLe (x y : String) : Bool := strLt x y || x == y

/-- Boolean order on key-value pairs used by sorting: key first, then
value, as tuple comparison orders `dict.items()` entries. -/
def pairLeB (x y : String × String) : Bool :=
  strLt x.1 y.1 || (x.1 == y.1 && strLe x.2 y.2)

/-- The pair order as a relation. -/
def pairLe (x y : String × String) : Prop := pairLeB x y = true

instance : DecidableRel pairLe := fun x y =>
  inferInstanceAs (Decidable (pairLeB x y = true))

/-- Sort a pair list ascending by key (then value), as
`dict(sorted(d.items()))` does. -/
def sortPairs (l : List (String × String)) : List (String × String) :=
  List.insertionSort pairLe l

/-! ## `PaynowClient` signing (`client.py`) -/

/-- `PaynowClient._calculate_request_signature`: HMAC-SHA256 over the
compact JSON `{"headers": ..., "parameters": ..., "body": ...}` of
the sorted header map `{"Api-Key", "Idempotency-Key"}`, the sorted
query-parameter map and the body string, base64-encoded. -/
def calculate_request_signature (signatureKey apiKey idempotencyKey body : String)
    (parameters : List (String × String)) : String :=
  let headersDict := [("Api-Key", apiKey), ("Idempotency-Key", idempotencyKey)]
  let sortedHeaders := sortPairs headersDict
  let sortedParams := sortPairs parameters
  let payloadJson :=
    "\x7b\"headers\":" ++ jsonObj sortedHeaders ++
      ",\"parameters\":" ++ jsonObj sortedParams ++
      ",\"body\":" ++ jsonString body ++ "\x7d"
  base64Encode (hmacSha256 (utf8 signatureKey) (utf8 payloadJson))

/-- `PaynowClient._calculate_notification_signature`: HMAC-SHA256 of
the raw body string with the signature key, base64-encoded. -/
def calculate_notification_signature (signatureKey body : String) : String :=
  base64Encode (hmacSha256 (utf8 signatureKey) (utf8 body))

/-! ## `PaynowClient` HTTP status interpretation (`client.py`) -/

/-- The adapter error taxonomy raised by the client: 401 maps to
`CredentialsError`, refund creation failures to `RefundFailure`, any
other non-success to `CommunicationError`. -/
inductive ApiFailure where
  | credentials : ApiFailure
  | communication : ApiFailure
  | refundFailure : ApiFailure
deriving DecidableEq

/-- `PaynowClient._handle_error`: the exception chosen for a
non-success response. -/
def handle_error (status : Nat) : ApiFailure :=
  if status = 401 then ApiFailure.credentials else ApiFailure.communication

/-- Response interpretation of `PaynowClient.create_payment`:
200/201 succeed, everything else goes to `_handle_error`. -/
def create_payment (status : Nat) : Except ApiFailure Unit :=
  if status = 200 ∨ status = 201 then Except.ok () else Except.error (handle_error status)

/-- Response interpretation of `PaynowClient.get_payment_status`. -/
def get_payment_status (status : Nat) : Except ApiFailure Unit :=
  if status = 200 then Except.ok () else Except.error (handle_error status)

/-- Response interpretation of `PaynowClient.create_refund`: 200/201
succeed, 401 raises `CredentialsError`, anything else raises
`RefundFailure` (its own branch, not `_handle_error`). -/
def create_refund (status : Nat) : Except ApiFailure Unit :=
  if status = 200 ∨ status = 201 then Except.ok ()
  else if status = 401 then Except.error ApiFailure.credentials
  else Except.error ApiFailure.refundFailure

/-- Response interpretation of `PaynowClient.get_refund_status`. -/
def get_refund_status (status : Nat) : Except ApiFailure Unit :=
  if status = 200 then Except.ok () else Except.error (handle_error status)

/-- Response interpretation of `PaynowClient.cancel_refund`. -/
def cancel_refund (status : Nat) : Except ApiFailure Unit :=
  if status = 200 ∨ status = 202 then Except.ok () else Except.error (handle_error status)

/-! ## Amount conversion (`client.py`) -/

/-- `PaynowClient._to_lowest_unit`: `int(amount * 100)` on an exact
decimal, i.e. truncation toward zero of the rational `amount * 100`. -/
def to_lowest_unit (amount : ℚ) : ℤ :=
  if 0 ≤ amount * 100 then ⌊amount * 100⌋ else ⌈amount * 100⌉

/-- `PaynowClient._from_lowest_unit`: `Decimal(amount) / 100`, exact
division. -/
def from_lowest_unit (amount : ℤ) : ℚ := (amount : ℚ) / 100

/-! ## `PaynowProcessor` (`processor.py`) -/

/-- Python `d.get(key, "")` on a string-valued dict, embedded as
first-match lookup in an association list. -/
def dictGet (d : List (String × String)) (k : String) : String :=
  match d.find? (fun p => p.1 == k) with
  | some p => p.2
  | none => ""

/-- `InvalidCallbackError` carrying its message. -/
inductive CallbackError where
  | invalidCallback : String → CallbackError
deriving DecidableEq

/-- The exact text of the bad-signature message,
`f"BAD SIGNATURE: got {received!r}, expected {expected!r}"` built
from the received and computed signature values only. -/
def badSignatureMessage (received expected : String) : String :=
  let q := String.singleton (Char.ofNat 39)
  "BAD SIGNATURE: got " ++ q ++ received ++ q ++ ", expected " ++ q ++ expected ++ q

/-- `PaynowProcessor.verify_callback`: read `raw_body` from kwargs
(defaulting to the empty string when absent), read the `Signature`
header by exact-key dict lookup (defaulting to the empty string),
raise on an empty received signature, else compare the received
signature with the HMAC of the raw body. -/
def verify_callback (signatureKey : String) (headers : List (String × String))
    (rawBody : Option String) : Except CallbackError Unit :=
  let raw_body := rawBody.getD ""
  let received_sig := dictGet headers "Signature"
  if received_sig = "" then
    Except.error (CallbackError.invalidCallback "Missing Signature header in notification")
  else
    let expected_sig := calculate_notification_signature signatureKey raw_body
    if expected_sig = received_sig then Except.ok ()
    else Except.error (CallbackError.invalidCallback (badSignatureMessage received_sig expected_sig))

/-- `transitions.core.MachineError`: an illegal-transition error. -/
inductive MachineError where
  | illegal : MachineError
deriving DecidableEq

/-- The payment record as the processor touches it: the FSM state
plus the identifier fields and some inert data fields, so that frame
properties are observable. -/
structure Payment (σ : Type) where
  state : σ
  externalId : String
  description : String
  amountPaid : Nat
deriving DecidableEq

/-- The external FSM collaborator interface consumed by
`handle_callback`: capability query (`may_trigger`), the transition
methods, and the duck-typed presence of a `fail` method. -/
structure PaymentFSM (σ : Type) where
  mayTrigger : String → σ → Bool
  confirmPayment : σ → Except MachineError σ
  markAsPaid : σ → Except MachineError σ
  hasFail : Bool
  fail : σ → Except MachineError σ

/-- `contextlib.suppress(MachineError)` around a transition: keep the
old state when the transition raises. -/
def suppressMachineError {σ : Type} (old : σ) : Except MachineError σ → σ
  | Except.ok s => s
  | Except.error _ => old

/-- `PaynowProcessor.handle_callback`: store a non-empty `paymentId`
as `external_id`, then map the notification status: CONFIRMED runs
`confirm_payment` guarded by `may_trigger` followed by a suppressed
`mark_as_paid`; the four failure statuses run a suppressed `fail`
when present; anything else is a logged no-op. The result is the
mutated payment plus the propagated exception, if any. -/
def handle_callback {σ : Type} (fsm : PaymentFSM σ) (p : Payment σ)
    (data : List (String × String)) : Payment σ × Option MachineError :=
  let payment_id := dictGet data "paymentId"
  let paynow_status := dictGet data "status"
  let p1 := if payment_id ≠ "" then { p with externalId := payment_id } else p
  if paynow_status = "CONFIRMED" then
    if fsm.mayTrigger "confirm_payment" p1.state then
      match fsm.confirmPayment p1.state with
      | Except.error e => (p1, some e)
      | Except.ok s2 =>
        ({ p1 with state := suppressMachineError s2 (fsm.markAsPaid s2) }, none)
    else (p1, none)
  else if paynow_status = "REJECTED" ∨ paynow_status = "ERROR" ∨
      paynow_status = "EXPIRED" ∨ paynow_status = "ABANDONED" then
    if fsm.hasFail then
      ({ p1 with state := suppressMachineError p1.state (fsm.fail p1.state) }, none)
    else (p1, none)
  else (p1, none)

/-- Modelled from the spec: the external payment FSM (getpaid-core's
payment machine) is not part of this repository; per spec section 4.4
and section 6 its states are at least NEW, PREPARED, PAID, FAILED,
`confirm payment` is legal exactly from PREPARED (it is illegal from
the initial NEW state and from PAID), `mark as paid` is the follow-up
transition that is illegal once the payment is already PAID, and
`fail` is legal from the non-terminal states. -/
inductive CoreState where
  | new : CoreState
  | prepared : CoreState
  | paid : CoreState
  | failed : CoreState
deriving DecidableEq

/-- Modelled from the spec: transition legality of the external FSM
collaborator, see `CoreState`. -/
def coreFSM : PaymentFSM CoreState where
  mayTrigger := fun t s => t == "confirm_payment" && s == CoreState.prepared
  confirmPayment := fun s =>
    if s == CoreState.prepared then Except.ok CoreState.paid else Except.error MachineError.illegal
  markAsPaid := fun s =>
    if s == CoreState.prepared then Except.ok CoreState.paid else Except.error MachineError.illegal
  hasFail := true
  fail := fun s =>
    if s == CoreState.new || s == CoreState.prepared then Except.ok CoreState.failed
    else Except.error MachineError.illegal

/-- The 7-value payment status enum of `types.py` (`AutoName`: the
wire value equals the member name). -/
inductive PaynowPaymentStatus where
  | NEW : PaynowPaymentStatus
  | PENDING : PaynowPaymentStatus
  | CONFIRMED : PaynowPaymentStatus
  | REJECTED : PaynowPaymentStatus
  | ERROR : PaynowPaymentStatus
  | EXPIRED : PaynowPaymentStatus
  | ABANDONED : PaynowPaymentStatus
deriving DecidableEq

/-- The string value of a payment status member. -/
def statusValue : PaynowPaymentStatus → String
  | PaynowPaymentStatus.NEW => "NEW"
  | PaynowPaymentStatus.PENDING => "PENDING"
  | PaynowPaymentStatus.CONFIRMED => "CONFIRMED"
  | PaynowPaymentStatus.REJECTED => "REJECTED"
  | PaynowPaymentStatus.ERROR => "ERROR"
  | PaynowPaymentStatus.EXPIRED => "EXPIRED"
  | PaynowPaymentStatus.ABANDONED => "ABANDONED"

/-- The `status_map.get(paynow_status)` table of
`PaynowProcessor.fetch_payment_status`: `dict.get` returns `None`
both for the NEW entry and for a key outside the table. -/
def fetch_status_map (paynow_status : String) : Option String :=
  if paynow_status = "NEW" then none
  else if paynow_status = "PENDING" then some "confirm_prepared"
  else if paynow_status = "CONFIRMED" then some "confirm_payment"
  else if paynow_status = "REJECTED" then some "fail"
  else if paynow_status = "ERROR" then some "fail"
  else if paynow_status = "EXPIRED" then some "fail"
  else if paynow_status = "ABANDONED" then some "fail"
  else none

/-- `PaynowProcessor.fetch_payment_status` after the remote status
string has been fetched: it only builds the proposed-transition
response and leaves the payment untouched. -/
def fetch_payment_status {σ : Type} (p : Payment σ) (remoteStatus : String) :
    Payment σ × Option String :=
  (p, fetch_status_map remoteStatus)

/-! ## Order facts about the pair sort -/

lemma char_eq_of_toNat_eq {a b : Char} (h : a.toNat = b.toNat) : a = b :=
  Char.ext (UInt32.ext h)

lemma lexLt_cons {a b : Char} {as bs : List Char} :
    lexLt (a :: as) (b :: bs) = true ↔
      a.toNat < b.toNat ∨ (a.toNat = b.toNat ∧ lexLt as bs = true) := by
  simp [lexLt]

lemma lexLt_irrefl : ∀ l : List Char, lexLt l l = false
  | [] => rfl
  | a :: as => by
    have ih := lexLt_irrefl as
    have hb : Nat.blt a.toNat a.toNat = false :=
      (Bool.not_eq_true _).mp (by simp)
    simp [lexLt, ih, hb]

lemma lexLt_trans (l1 : List Char) : ∀ l2 l3 : List Char,
    lexLt l1 l2 = true → lexLt l2 l3 = true → lexLt l1 l3 = true := by
  induction l1 with
  | nil =>
    intro l2 l3 h1 h2
    cases l3 with
    | nil =>
      cases l2 with
      | nil => simp [lexLt] at h1
      | cons b bs => simp [lexLt] at h2
    | cons c cs => simp [lexLt]
  | cons a as ih =>
    intro l2 l3 h1 h2
    cases l2 with
    | nil => simp [lexLt] at h1
    | cons b bs =>
      cases l3 with
      | nil => simp [lexLt] at h2
      | cons c cs =>
        rw [lexLt_cons] at h1 h2 ⊢
        rcases h1 with h1 | ⟨hab, h1⟩
        · rcases h2 with h2 | ⟨hbc, h2⟩
          · exact Or.inl (Nat.lt_trans h1 h2)
          · exact Or.inl (hbc ▸ h1)
        · rcases h2 with h2 | ⟨hbc, h2⟩
          · exact Or.inl (hab ▸ h2)
          · exact Or.inr ⟨hab.trans hbc, ih bs cs h1 h2⟩

lemma lexLt_asymm {l1 l2 : List Char} (h1 : lexLt l1 l2 = true)
    (h2 : lexLt l2 l1 = true) : False := by
  have := lexLt_trans l1 l2 l1 h1 h2
  rw [lexLt_irrefl l1] at this
  exact Bool.false_ne_true this

lemma lexLt_eq_of_not_lt (l1 : List Char) : ∀ l2,
    lexLt l1 l2 = false → lexLt l2 l1 = false → l1 = l2 := by
  induction l1 with
  | nil =>
    intro l2 h1 _
    cases l2 with
    | nil => rfl
    | cons b bs => simp [lexLt] at h1
  | cons a as ih =>
    intro l2 h1 h2
    cases l2 with
    | nil => simp [lexLt] at h2
    | cons b bs =>
      have h1' : ¬ (a.toNat < b.toNat ∨ (a.toNat = b.toNat ∧ lexLt as bs = true)) := by
        rw [← lexLt_cons]
        simp [h1]
      have h2' : ¬ (b.toNat < a.toNat ∨ (b.toNat = a.toNat ∧ lexLt bs as = true)) := by
        rw [← lexLt_cons]
        simp [h2]
      push_neg at h1' h2'
      have hab : a.toNat = b.toNat := by omega
      cases char_eq_of_toNat_eq hab
      have hs : as = bs :=
        ih bs (Bool.not_eq_true _ |>.mp (h1'.2 rfl)) (Bool.not_eq_true _ |>.mp (h2'.2 rfl))
      rw [hs]

lemma strLt_trans {x y z : String} (h1 : strLt x y = true) (h2 : strLt y z = true) :
    strLt x z = true :=
  lexLt_trans x.data y.data z.data h1 h2

lemma strLt_irrefl (x : String) : strLt x x = false := lexLt_irrefl x.data

lemma strLt_asymm {x y : String} (h1 : strLt x y = true) (h2 : strLt y x = true) : False :=
  lexLt_asymm h1 h2

lemma strLt_eq_of_not_lt {x y : String} (h1 : strLt x y = false)
    (h2 : strLt y x = false) : x = y := by
  cases x with
  | mk xs =>
    cases y with
    | mk ys =>
      have : xs = ys := lexLt_eq_of_not_lt xs ys h1 h2
      rw [this]

lemma pairLe_iff {x y : String × String} : pairLe x y ↔
    strLt x.1 y.1 = true ∨ (x.1 = y.1 ∧ (strLt x.2 y.2 = true ∨ x.2 = y.2)) := by
  simp [pairLe, pairLeB, strLe]

instance : IsTrans (String × String) pairLe where
  trans := by
    intro x y z hxy hyz
    rw [pairLe_iff] at hxy hyz ⊢
    rcases hxy with h1 | ⟨e1, h1⟩
    · rcases hyz with h2 | ⟨e2, h2⟩
      · exact Or.inl (strLt_trans h1 h2)
      · exact Or.inl (e2 ▸ h1)
    · rcases hyz with h2 | ⟨e2, h2⟩
      · exact Or.inl (e1 ▸ h2)
      · refine Or.inr ⟨e1.trans e2, ?_⟩
        rcases h1 with h1 | h1
        · rcases h2 with h2 | h2
          · exact Or.inl (strLt_trans h1 h2)
          · exact Or.inl (h2 ▸ h1)
        · rcases h2 with h2 | h2
          · exact Or.inl (h1 ▸ h2)
          · exact Or.inr (h1.trans h2)

instance : IsAntisymm (String × String) pairLe where
  antisymm := by
    intro x y hxy hyx
    rw [pairLe_iff] at hxy hyx
    rcases hxy with h1 | ⟨e1, h1⟩
    · rcases hyx with h2 | ⟨e2, h2⟩
      · exact (strLt_asymm h1 h2).elim
      · rw [e2] at h1
        rw [strLt_irrefl] at h1
        exact absurd h1 Bool.false_ne_true
    · rcases hyx with h2 | ⟨e2, h2⟩
      · rw [e1] at h2
        rw [strLt_irrefl] at h2
        exact absurd h2 Bool.false_ne_true
      · have hv : x.2 = y.2 := by
          rcases h1 with h1 | h1
          · rcases h2 with h2 | h2
            · exact (strLt_asymm h1 h2).elim
            · exact h2.symm
          · exact h1
        exact Prod.ext e1 hv

instance : IsTotal (String × String) pairLe where
  total := by
    intro x y
    rcases hk1 : strLt x.1 y.1 with _ | _
    · rcases hk2 : strLt y.1 x.1 with _ | _
      · have hk : x.1 = y.1 := strLt_eq_of_not_lt hk1 hk2
        rcases hv1 : strLt x.2 y.2 with _ | _
        · rcases hv2 : strLt y.2 x.2 with _ | _
          · exact Or.inl (pairLe_iff.mpr (Or.inr ⟨hk, Or.inr (strLt_eq_of_not_lt hv1 hv2)⟩))
          · exact Or.inr (pairLe_iff.mpr (Or.inr ⟨hk.symm, Or.inl hv2⟩))
        · exact Or.inl (pairLe_iff.mpr (Or.inr ⟨hk, Or.inl hv1⟩))
      · exact Or.inr (pairLe_iff.mpr (Or.inl hk2))
    · exact Or.inl (pairLe_iff.mpr (Or.inl hk1))

/-- Sorting is invariant under permutation of the input: the sorted
outputs of two permuted pair lists coincide. -/
lemma sortPairs_congr {l1 l2 : List (String × String)} (h : l1.Perm l2) :
    sortPairs l1 = sortPairs l2 :=
  List.eq_of_perm_of_sorted
    ((List.perm_insertionSort pairLe l1).trans (h.trans (List.perm_insertionSort pairLe l2).symm))
    (List.sorted_insertionSort pairLe l1) (List.sorted_insertionSort pairLe l2)

/-! ## Shape facts about the digest -/

lemma sha256Round_length (st : List Nat) (kw : Nat × Nat) :
    (sha256Round st kw).length = st.length := by
  unfold sha256Round
  split
  · simp
  · rfl

lemma foldl_sha256Round_length (l : List (Nat × Nat)) (st : List Nat) :
    (l.foldl sha256Round st).length = st.length := by
  induction l generalizing st with
  | nil => rfl
  | cons kw l ih => rw [List.foldl_cons, ih, sha256Round_length]

lemma sha256Compress_length (h block : List Nat) :
    (sha256Compress h block).length = h.length := by
  unfold sha256Compress
  simp [List.length_zipWith, foldl_sha256Round_length]

lemma foldl_sha256Compress_length (blocks : List (List Nat)) (h : List Nat) :
    (blocks.foldl sha256Compress h).length = h.length := by
  induction blocks generalizing h with
  | nil => rfl
  | cons b blocks ih => rw [List.foldl_cons, ih, sha256Compress_length]

lemma toBytesBE_length (k : Nat) : ∀ n, (toBytesBE k n).length = k := by
  induction k with
  | zero => intro n; rfl
  | succ k ih => intro n; simp [toBytesBE, ih]

lemma flatten_map_toBytesBE_length (l : List Nat) :
    ((l.map (toBytesBE 4)).flatten).length = 4 * l.length := by
  induction l with
  | nil => rfl
  | cons a t ih =>
    simp only [List.map_cons, List.flatten_cons, List.length_append, ih,
      toBytesBE_length, List.length_cons]
    omega

lemma sha256_length (msg : List Nat) : (sha256 msg).length = 32 := by
  unfold sha256
  rw [flatten_map_toBytesBE_length, foldl_sha256Compress_length]
  rfl

lemma hmacSha256_length (key msg : List Nat) : (hmacSha256 key msg).length = 32 := by
  unfold hmacSha256
  exact sha256_length _

/-- A notification signature is never the empty string: the digest
has 32 bytes and base64 of a nonempty byte list is nonempty. -/
lemma calculate_notification_signature_ne_empty (key body : String) :
    calculate_notification_signature key body ≠ "" := by
  unfold calculate_notification_signature base64Encode
  intro hEq
  have hData : base64Chars (hmacSha256 (utf8 key) (utf8 body)) = [] := by
    have := congrArg String.data hEq
    simpa using this
  have h32 := hmacSha256_length (utf8 key) (utf8 body)
  rcases hs : hmacSha256 (utf8 key) (utf8 body) with _ | ⟨b0, rest⟩
  · rw [hs] at h32
    simp at h32
  · rw [hs] at hData
    rcases rest with _ | ⟨b1, rest2⟩
    · simp [base64Chars] at hData
    · rcases rest2 with _ | ⟨b2, rest3⟩
      · simp [base64Chars] at hData
      · simp [base64Chars] at hData

lemma base64Chars_length (s : List Nat) :
    (base64Chars s).length = (s.length + 2) / 3 * 4 := by
  induction s using base64Chars.induct <;> simp [base64Chars, *] <;> omega

/-- A notification signature always has the 44 characters of a
base64-encoded 32-byte digest. -/
lemma calculate_notification_signature_length (key body : String) :
    (calculate_notification_signature key body).length = 44 := by
  unfold calculate_notification_signature base64Encode
  show (String.mk _).length = 44
  rw [String.length, base64Chars_length, hmacSha256_length]

end Paynow

namespace Paynow

/-- C5: minor-unit conversion round-trips exactly on non-negative
integers, with `fromMinorUnits 123 = 1.23` and
`toMinorUnits 1.23 = 123`, in exact rational arithmetic. -/
theorem minor_unit_round_trip :
    (∀ x : ℕ, to_lowest_unit (from_lowest_unit (x : ℤ)) = (x : ℤ)) ∧
      from_lowest_unit 123 = (1.23 : ℚ) ∧ to_lowest_unit (1.23 : ℚ) = 123 := by
  refine ⟨?_, ?_, ?_⟩
  · intro x
    unfold to_lowest_unit from_lowest_unit
    have h : ((x : ℤ) : ℚ) / 100 * 100 = ((x : ℤ) : ℚ) := by
      rw [div_mul_cancel₀]
      norm_num
    rw [h, if_pos (by positivity), Int.floor_intCast]
  · unfold from_lowest_unit
    norm_num
  · unfold to_lowest_unit
    norm_num

/-- C9: the pull-path status table of `fetch_payment_status` is total
on the 7-value gateway status enum with exactly the claimed entries,
and the pull path only reports the proposed transition, leaving the
payment untouched. -/
theorem pull_status_mapping_total :
    (∀ st : PaynowPaymentStatus, fetch_status_map (statusValue st) =
      match st with
      | PaynowPaymentStatus.NEW => none
      | PaynowPaymentStatus.PENDING => some "confirm_prepared"
      | PaynowPaymentStatus.CONFIRMED => some "confirm_payment"
      | _ => some "fail") ∧
    (∀ (σ : Type) (p : Payment σ) (s : String),
      (fetch_payment_status p s).1 = p ∧
        (fetch_payment_status p s).2 = fetch_status_map s) := by
  constructor
  · intro st
    cases st <;> rfl
  · intro σ p s
    exact ⟨rfl, rfl⟩

/-- C3: a non-success, non-401 status on refund creation raises
`RefundFailure` while the same status on the status-read calls
raises `CommunicationError`, and both raise `CredentialsError`
exactly at 401. -/
theorem refund_error_taxonomy (s : Nat) :
    (s ≠ 200 → s ≠ 201 → s ≠ 401 →
      create_refund s = Except.error ApiFailure.refundFailure) ∧
    (s ≠ 200 → s ≠ 401 →
      get_refund_status s = Except.error ApiFailure.communication ∧
        get_payment_status s = Except.error ApiFailure.communication) ∧
    (create_refund s = Except.error ApiFailure.credentials ↔ s = 401) ∧
    (get_refund_status s = Except.error ApiFailure.credentials ↔ s = 401) := by
  by_cases h200 : s = 200 <;> by_cases h201 : s = 201 <;> by_cases h401 : s = 401 <;>
    simp_all [create_refund, get_refund_status, get_payment_status, handle_error]

/-- Witness for C3 at the concrete status 400: refund creation
surfaces `RefundFailure` while a refund status read surfaces
`CommunicationError`. -/
theorem refund_error_taxonomy_witness :
    create_refund 400 = Except.error ApiFailure.refundFailure ∧
      get_refund_status 400 = Except.error ApiFailure.communication := by
  refine ⟨(refund_error_taxonomy 400).1 (by decide) (by decide) (by decide), ?_⟩
  exact ((refund_error_taxonomy 400).2.1 (by decide) (by decide)).1

/-- C2 (counter-evidence): when no raw body is supplied,
`verify_callback` does not raise the input-validation failure the
claim requires; it proceeds with the empty string as body, and even
accepts the notification whenever the received signature happens to
match the HMAC of the empty string. -/
theorem verify_callback_missing_raw_body_accepted (key : String) :
    verify_callback key
        [("Signature", calculate_notification_signature key "")] none =
      Except.ok () := by
  have hne := calculate_notification_signature_ne_empty key ""
  simp [verify_callback, dictGet, hne]

/-- C6 (counter-evidence): the `Signature` header lookup is
case-sensitive dict access, so a lowercase `signature` header is
reported as missing instead of being used. -/
theorem verify_callback_lowercase_header_rejected (key body sig : String) :
    verify_callback key [("signature", sig)] (some body) =
      Except.error
        (CallbackError.invalidCallback "Missing Signature header in notification") :=
  rfl

/-- C8: a missing or empty `Signature` header raises the
missing-signature `InvalidCallbackError` irrespective of key and
body (so before any HMAC enters the decision), and a non-matching
signature raises an error whose message is built from the received
and computed signature values only. -/
theorem verify_callback_error_messages :
    (∀ (key : String) (headers : List (String × String)) (rawBody : Option String),
      dictGet headers "Signature" = "" →
      verify_callback key headers rawBody =
        Except.error
          (CallbackError.invalidCallback "Missing Signature header in notification")) ∧
    (∀ (key : String) (headers : List (String × String)) (rawBody : Option String)
        (r : String),
      dictGet headers "Signature" = r → r ≠ "" →
      calculate_notification_signature key (rawBody.getD "") ≠ r →
      verify_callback key headers rawBody =
        Except.error (CallbackError.invalidCallback
          (badSignatureMessage r (calculate_notification_signature key (rawBody.getD ""))))) := by
  constructor
  · intro key headers rawBody h
    unfold verify_callback
    rw [h]
    simp
  · intro key headers rawBody r hr hrne hexp
    unfold verify_callback
    rw [hr, if_neg hrne, if_neg hexp]

/-- Witness for C8: the empty header map triggers the
missing-signature error, and a 3-character received signature can
never match the 44-character computed signature, triggering the
bad-signature error with both values in the message. -/
theorem verify_callback_error_messages_witness :
    verify_callback "k" [] none =
      Except.error
        (CallbackError.invalidCallback "Missing Signature header in notification") ∧
    verify_callback "k" [("Signature", "BAD")] none =
      Except.error (CallbackError.invalidCallback
        (badSignatureMessage "BAD" (calculate_notification_signature "k" ""))) := by
  constructor
  · exact verify_callback_error_messages.1 "k" [] none rfl
  · refine verify_callback_error_messages.2 "k" [("Signature", "BAD")] none "BAD" rfl
      (by decide) ?_
    show calculate_notification_signature "k" "" ≠ "BAD"
    intro h
    have hlen := calculate_notification_signature_length "k" ""
    rw [h] at hlen
    exact absurd hlen (by decide)

/-- C4: a CONFIRMED notification is harmless when confirming is
illegal: against a payment already PAID it neither raises nor moves
the state (so a duplicate delivery is idempotent), against a payment
still in its initial NEW state it neither raises nor moves the
state; and in the legal PREPARED case the follow-up `mark_as_paid`
illegality is suppressed, landing the payment in PAID without
raising. -/
theorem confirmed_notification_idempotent :
    (∀ (p : Payment CoreState) (d : List (String × String)),
      dictGet d "status" = "CONFIRMED" → p.state = CoreState.paid →
      (handle_callback coreFSM p d).2 = none ∧
        (handle_callback coreFSM p d).1.state = CoreState.paid) ∧
    (∀ (p : Payment CoreState) (d : List (String × String)),
      dictGet d "status" = "CONFIRMED" → p.state = CoreState.new →
      (handle_callback coreFSM p d).2 = none ∧
        (handle_callback coreFSM p d).1.state = CoreState.new) ∧
    (∀ (p : Payment CoreState) (d : List (String × String)),
      dictGet d "status" = "CONFIRMED" → p.state = CoreState.prepared →
      (handle_callback coreFSM p d).2 = none ∧
        (handle_callback coreFSM p d).1.state = CoreState.paid) := by
  refine ⟨?_, ?_, ?_⟩ <;>
    · intro p d hs hst
      by_cases hpid : dictGet d "paymentId" ≠ "" <;>
        simp [handle_callback, hs, hst, hpid, coreFSM, suppressMachineError]

/-- Witness for C4: concrete PAID, NEW and PREPARED payments
receiving a concrete CONFIRMED notification. -/
theorem confirmed_notification_idempotent_witness :
    ((handle_callback coreFSM
        (Payment.mk CoreState.paid "x" "d" 5) [("status", "CONFIRMED")]).2 = none ∧
      (handle_callback coreFSM
        (Payment.mk CoreState.paid "x" "d" 5) [("status", "CONFIRMED")]).1.state =
        CoreState.paid) ∧
    ((handle_callback coreFSM
        (Payment.mk CoreState.new "x" "d" 5) [("status", "CONFIRMED")]).2 = none ∧
      (handle_callback coreFSM
        (Payment.mk CoreState.new "x" "d" 5) [("status", "CONFIRMED")]).1.state =
        CoreState.new) ∧
    ((handle_callback coreFSM
        (Payment.mk CoreState.prepared "x" "d" 5) [("status", "CONFIRMED")]).2 = none ∧
      (handle_callback coreFSM
        (Payment.mk CoreState.prepared "x" "d" 5) [("status", "CONFIRMED")]).1.state =
        CoreState.paid) :=
  ⟨confirmed_notification_idempotent.1 _ _ rfl rfl,
    confirmed_notification_idempotent.2.1 _ _ rfl rfl,
    confirmed_notification_idempotent.2.2 _ _ rfl rfl⟩

/-- C10: whenever the notification carries a non-empty `paymentId`,
`handle_callback` stores it in `external_id` in every status branch;
and for a status that triggers no transition (PENDING, NEW or any
unrecognized value) the stored identifier is the payment's only
change and nothing is raised. -/
theorem handle_callback_records_external_id {σ : Type} (fsm : PaymentFSM σ)
    (p : Payment σ) (d : List (String × String))
    (hpid : dictGet d "paymentId" ≠ "") :
    ((handle_callback fsm p d).1.externalId = dictGet d "paymentId") ∧
    (dictGet d "status" ≠ "CONFIRMED" → dictGet d "status" ≠ "REJECTED" →
      dictGet d "status" ≠ "ERROR" → dictGet d "status" ≠ "EXPIRED" →
      dictGet d "status" ≠ "ABANDONED" →
      handle_callback fsm p d =
        ({ p with externalId := dictGet d "paymentId" }, none)) := by
  constructor
  · unfold handle_callback
    dsimp only
    rw [if_pos hpid]
    split
    · split
      · split <;> rfl
      · rfl
    · split
      · split <;> rfl
      · rfl
  · intro h1 h2 h3 h4 h5
    unfold handle_callback
    dsimp only
    rw [if_pos hpid, if_neg h1, if_neg (by simp [h2, h3, h4, h5])]

/-- Witness for C10: a PENDING notification with a payment id only
rewrites `external_id`. -/
theorem handle_callback_records_external_id_witness :
    ((handle_callback coreFSM (Payment.mk CoreState.new "old" "d" 5)
        [("paymentId", "PAY-1"), ("status", "PENDING")]).1.externalId = "PAY-1") ∧
    (handle_callback coreFSM (Payment.mk CoreState.new "old" "d" 5)
        [("paymentId", "PAY-1"), ("status", "PENDING")] =
      (Payment.mk CoreState.new "PAY-1" "d" 5, none)) := by
  have h := handle_callback_records_external_id coreFSM
    (Payment.mk CoreState.new "old" "d" 5)
    [("paymentId", "PAY-1"), ("status", "PENDING")] (by decide)
  exact ⟨h.1, h.2 (by decide) (by decide) (by decide) (by decide) (by decide)⟩

/-- C7: request signing is order-independent in the query-parameter
map: two parameter lists holding the same bindings in different
orders produce the same signature. -/
theorem request_signature_perm_invariant (sk ak ik body : String)
    {p1 p2 : List (String × String)} (h : p1.Perm p2) :
    calculate_request_signature sk ak ik body p1 =
      calculate_request_signature sk ak ik body p2 := by
  unfold calculate_request_signature
  dsimp only
  rw [sortPairs_congr h]

/-- Witness for C7 at the two-binding example of the spec. -/
theorem request_signature_perm_invariant_witness :
    calculate_request_signature "k" "a" "i" "" [("a", "1"), ("b", "2")] =
      calculate_request_signature "k" "a" "i" "" [("b", "2"), ("a", "1")] :=
  request_signature_perm_invariant "k" "a" "i" ""
    (List.Perm.swap ("b", "2") ("a", "1") [])

set_option maxRecDepth 2000000 in
set_option maxHeartbeats 4000000 in
/-- C1: the published Paynow request-signature test vector: empty
body, empty parameters, the documented api, idempotency and
signature keys, giving exactly the documented base64 HMAC value. -/
theorem request_signature_known_vector :
    calculate_request_signature "b305b996-bca5-4404-a0b7-2ccea3d2b64b"
        "97a55694-5478-43b5-b406-fb49ebfdd2b5"
        "d243fdb3-c287-484a-bb9c-58536f2794c1" "" [] =
      "fXwLZRwo0WiGll90PPl5oULX9VKA0gpFA/3+E+NRp5E=" := by
  decide

end Paynow
